import Mathlib

/-!
Shallow embedding of the hypnofrog stress-testing harness
(src/hypnofrog/__init__.py): the failure taxonomy, the process invoker,
the trial evaluator, the run loop, the stdout-capture context manager
and the `make_input` helper, together with theorems settling the claims
about them.

External process execution is modelled by an oracle
`os : InvokeCall → Except InvokeError String` giving, for each
invocation the harness performs (program, standard-input text, optional
memory limit), either the captured standard output (exit status 0) or a
structured invocation error.  The checker subprocess (which is run with
two file-path arguments, its stdin closed and stderr merged into
stdout) is modelled by a separate oracle receiving the checker program
and the contents written to the two temporary files.
-/

namespace Hypnofrog

/-- Result of a failed subprocess invocation.
`calledProcess rc out err` models `subprocess.CalledProcessError` (the
child ran and exited with non-zero status `rc`; its captured stdout and
stderr are attributes of the error), while `osError msg` models an
`OSError` (the child could not be started; no `stdout`/`stderr`
attributes exist). -/
inductive InvokeError where
  | calledProcess (returncode : Int) (stdout : String) (stderr : String)
  | osError (message : String)
deriving DecidableEq

/-- Human-readable rendering of an invocation error, standing in for
Python's `str(error)` (the exact wording of messages is not part of any
claim; only which message is attached where). -/
def InvokeError.str : InvokeError → String
  | .calledProcess rc _ _ => "Command returned non-zero exit status " ++ toString rc ++ "."
  | .osError m => m

/-- Tag distinguishing the concrete class of a raised failure
(Python distinguishes these by exception subclass). `failedCase` is the
base class used directly for the catch-all Unexpected Failure. -/
inductive FailureKind where
  | failedCase
  | answerMismatch
  | crashError
  | badReferenceError
  | failedCheckerError
deriving DecidableEq

/-- A raised failure: the shared payload of the whole taxonomy.
`files` and `logs` are the insertion-ordered dictionaries built by the
constructor chain (Python `dict` preserves insertion order; keys are
distinct by construction). -/
structure FailedCase where
  kind : FailureKind
  message : String
  files : List (String × String)
  logs : List (String × String)
deriving DecidableEq

/-- Embeds `FailedCase.__init__`: files = {hypnofrog.in: input},
logs = {input: input}. Also used directly (with kind `failedCase`) for
the generic `Unexpected error` wrapper in `trial`. -/
def mkFailedCase (kind : FailureKind) (message input : String) : FailedCase :=
  ⟨kind, message, [("hypnofrog.in", input)], [("input", input)]⟩

/-- Embeds `BadAnswer.__init__`: the base constructor, then
`files[hypnofrog.out] = output`. -/
def mkBadAnswer (kind : FailureKind) (message input output : String) : FailedCase :=
  let e := mkFailedCase kind message input
  { e with files := e.files ++ [("hypnofrog.out", output)] }

/-- Embeds `AnswerMismatch.__init__`: the `BadAnswer` constructor, then
`files[hypnofrog.ref] = reference`. -/
def mkAnswerMismatch (input output reference : String) : FailedCase :=
  let e := mkBadAnswer .answerMismatch "Answer does not match the reference" input output
  { e with files := e.files ++ [("hypnofrog.ref", reference)] }

/-- Embeds `CrashError.__init__`: the base constructor, then
`logs[stderr] = error.stderr` when the error has a `stderr` attribute
(a `CalledProcessError` has one, an `OSError` does not). -/
def mkCrashError (input : String) (error : InvokeError) : FailedCase :=
  let e := mkFailedCase .crashError ("Target crashed: " ++ error.str) input
  match error with
  | .calledProcess _ _ stderr => { e with logs := e.logs ++ [("stderr", stderr)] }
  | .osError _ => e

/-- Embeds `BadReferenceError.__init__`: same shape as `CrashError`
with a distinct kind and message. -/
def mkBadReferenceError (input : String) (error : InvokeError) : FailedCase :=
  let e := mkFailedCase .badReferenceError ("Reference crashed: " ++ error.str) input
  match error with
  | .calledProcess _ _ stderr => { e with logs := e.logs ++ [("stderr", stderr)] }
  | .osError _ => e

/-- Embeds `FailedCheckerError.__init__`: the `BadAnswer` constructor,
then `logs[stderr] = error.stdout` when the error has a `stdout`
attribute (for the checker invocation stderr is merged into stdout, so
`error.stdout` is the merged diagnostic stream; an `OSError` has no
`stdout` attribute and adds no log). -/
def mkFailedCheckerError (input output : String) (error : InvokeError) : FailedCase :=
  let e := mkBadAnswer .failedCheckerError ("Checker failed: " ++ error.str) input output
  match error with
  | .calledProcess _ stdout _ => { e with logs := e.logs ++ [("stderr", stdout)] }
  | .osError _ => e

/-- Parsed command-line configuration (`parse_args`): target program,
optional reference, optional checker, optional memory limit in MiB. -/
structure Args where
  target : String
  reference : Option String
  checker : Option String
  mem_limit : Option Nat
deriving DecidableEq

/-- One invocation request issued through `invoke`: the program, the
text piped to its standard input, and the optional memory limit. -/
structure InvokeCall where
  program : String
  input : String
  mem_limit : Option Nat
deriving DecidableEq

/-- Embeds the `preexec` closure inside `invoke`: the soft and hard
`RLIMIT_AS` values installed in the child before it executes,
`mem_limit * 1024 * 1024` bytes each. -/
def preexec (mem_limit : Nat) : Nat × Nat :=
  (mem_limit * 1024 * 1024, mem_limit * 1024 * 1024)

/-- The process-creation request `invoke` hands to the operating
system: argv is `[program]` (no arguments), the input text is piped to
stdin, and the address-space rlimit is installed (via `preexec`) if and
only if a memory limit was given. -/
structure SpawnSpec where
  argv : List String
  input : String
  rlimit_as : Option (Nat × Nat)
deriving DecidableEq

/-- Embeds `invoke`'s construction of the child process. -/
def invoke_spec (program input : String) (mem_limit : Option Nat) : SpawnSpec :=
  ⟨[program], input, mem_limit.map preexec⟩

/-- The checker phase of `trial` (lines 137-149): if a checker is
configured, write the input and the target output to two temporary
files and run the checker on their paths (modelled by the
`checker_os` oracle applied to the checker program and the two file
contents); a failed invocation raises `FailedCheckerError`. -/
def checkPhase (input : String) (args : Args)
    (checker_os : String → String → String → Except InvokeError String)
    (actual : String) (elapsed : Nat) : Except FailedCase Nat :=
  match args.checker with
  | none => .ok elapsed
  | some c =>
    match checker_os c input actual with
    | .error exc => .error (mkFailedCheckerError input actual exc)
    | .ok _ => .ok elapsed

/-- Embeds `trial`, additionally returning the list of `invoke` calls
it performed (in order), so that resource-limit propagation can be
stated.  Control flow follows the source: invoke the target with the
configured memory limit (failure → `CrashError`); if a reference is
configured invoke it with no memory limit (failure →
`BadReferenceError`, output mismatch → `AnswerMismatch`); then the
checker phase; otherwise return the elapsed time measured around the
target invocation. -/
def trialT (input : String) (args : Args)
    (os : InvokeCall → Except InvokeError String)
    (checker_os : String → String → String → Except InvokeError String)
    (elapsed : Nat) : Except FailedCase Nat × List InvokeCall :=
  match os ⟨args.target, input, args.mem_limit⟩ with
  | .error exc => (.error (mkCrashError input exc), [⟨args.target, input, args.mem_limit⟩])
  | .ok actual =>
    match args.reference with
    | some r =>
      match os ⟨r, input, none⟩ with
      | .error exc =>
        (.error (mkBadReferenceError input exc),
         [⟨args.target, input, args.mem_limit⟩, ⟨r, input, none⟩])
      | .ok expected =>
        if expected ≠ actual then
          (.error (mkAnswerMismatch input actual expected),
           [⟨args.target, input, args.mem_limit⟩, ⟨r, input, none⟩])
        else
          (checkPhase input args checker_os actual elapsed,
           [⟨args.target, input, args.mem_limit⟩, ⟨r, input, none⟩])
    | none =>
      (checkPhase input args checker_os actual elapsed,
       [⟨args.target, input, args.mem_limit⟩])

/-- Embeds `trial`: the verdict of `trialT` without the call trace. -/
def trial (input : String) (args : Args)
    (os : InvokeCall → Except InvokeError String)
    (checker_os : String → String → String → Except InvokeError String)
    (elapsed : Nat) : Except FailedCase Nat :=
  (trialT input args os checker_os elapsed).1

/-- True exactly when a trial completed without raising. -/
def isOk : Except FailedCase Nat → Bool
  | .ok _ => true
  | .error _ => false

/-- Embeds Python's `str.rstrip()` with no argument: drop trailing
whitespace characters. -/
def rstrip (s : String) : String :=
  ((s.toList.reverse.dropWhile Char.isWhitespace).reverse).asString

/-- The part of `run` driven by the generation strategy: evaluate
`trial` on each case in order and stop at the first raised failure.
The external hypothesis machinery is modelled as the finite sequence of
input cases it yields (within the imposed example budget); `elapsed`
gives the wall-clock time measured for each case. -/
def runLoop (cases : List String) (args : Args)
    (os : InvokeCall → Except InvokeError String)
    (checker_os : String → String → String → Except InvokeError String)
    (elapsed : String → Nat) : Option FailedCase :=
  match cases with
  | [] => none
  | c :: rest =>
    match trial c args os checker_os (elapsed c) with
    | .error exc => some exc
    | .ok _ => runLoop rest args os checker_os elapsed

/-- The externally observable outcome of `run`: the failure message
printed (if any), the log entries printed (name and rstripped content,
only for non-empty content), the artifact files written to the working
directory, and the returned exit status. -/
structure RunEffects where
  printedMessage : Option String
  printedLogs : List (String × String)
  writtenFiles : List (String × String)
  exitStatus : Nat
deriving DecidableEq

/-- The reporting block in `run`'s `except FailedCase` handler: print
the exception's message, print each log entry whose content is
non-empty (the content rstripped, as the source does), write every
file, and return exit status 1. -/
def reportFailure (exc : FailedCase) : RunEffects :=
  ⟨some exc.message,
   (exc.logs.filter fun p => !(p.2 == "")).map fun p => (p.1, rstrip p.2),
   exc.files, 1⟩

/-- Embeds `run`: drive the trials; on the first raised `FailedCase`
report and return 1, otherwise (budget exhausted with no failure)
return 0 with nothing printed or written. -/
def run (cases : List String) (args : Args)
    (os : InvokeCall → Except InvokeError String)
    (checker_os : String → String → String → Except InvokeError String)
    (elapsed : String → Nat) : RunEffects :=
  match runLoop cases args os checker_os elapsed with
  | some exc => reportFailure exc
  | none => ⟨none, [], [], 0⟩

/-- Whether the body of a `with capture_stdout()` block completed
normally or raised an exception. -/
inductive BodyOutcome where
  | completed
  | raised
deriving DecidableEq

/-- Embeds the `capture_stdout` context manager.  Sink objects are
identified by numbers; `real_stdout` is the value of `sys.stdout` on
entry and `out` is the fresh `StringIO` buffer the manager creates
(a distinct object).  The generator assigns `sys.stdout = out`, yields,
and assigns `sys.stdout = real_stdout` after the yield, with no
`try`/`finally`: when the body raises, the exception is thrown into the
generator at the yield point and propagates, so the assignment after
the yield never executes.  The result is the value of `sys.stdout`
after the `with` block exits (normally or by propagating the body's
exception). -/
def capture_stdout (real_stdout out : Nat) (outcome : BodyOutcome) : Nat :=
  match outcome with
  | .completed => real_stdout
  | .raised => out

/-- One argument to `make_input`: either a list/tuple of items (each
already rendered by `str`) or any other value (rendered by `str`). -/
inductive Arg where
  | scalar (s : String)
  | seq (items : List String)
deriving DecidableEq

/-- Embeds `make_input`: join, over the arguments in order, of one line
per argument — a list/tuple argument becomes its items separated by
single spaces, any other argument its string form — each line
terminated by a newline. -/
def make_input (args : List Arg) : String :=
  String.join (args.map fun inner =>
    (match inner with
     | .seq items => String.intercalate " " items
     | .scalar s => s) ++ "\n")

/-- Stated from the claim's words, for comparison with `make_input`:
the concatenation of one line per argument in order, a list/tuple
argument becoming its elements joined by single spaces and any other
argument its string form, every line terminated by a newline; zero
arguments give the empty string. -/
def make_input_claim : List Arg → String
  | [] => ""
  | .scalar s :: rest => s ++ "\n" ++ make_input_claim rest
  | .seq items :: rest => String.intercalate " " items ++ "\n" ++ make_input_claim rest

/-- A checker oracle that accepts everything (its result is unused on
success). -/
def sampleChk : String → String → String → Except InvokeError String :=
  fun _ _ _ => .ok ""

/-- An oracle where every program exits 0 and echoes its own name. -/
def okOs : InvokeCall → Except InvokeError String :=
  fun c => .ok (c.program ++ "!")

/-- An oracle where every program fails to start. -/
def crashOs : InvokeCall → Except InvokeError String :=
  fun _ => .error (.osError "boom")

/-- An oracle where every program exits 1 after writing to stderr. -/
def stderrCrashOs : InvokeCall → Except InvokeError String :=
  fun _ => .error (.calledProcess 1 "" "I crash\n")

/-- A checker oracle that rejects, writing to its merged stream. -/
def failChk : String → String → String → Except InvokeError String :=
  fun _ _ _ => .error (.calledProcess 1 "Answers differ\n" "")

/-- An oracle where program `t` succeeds and everything else fails to
start. -/
def refCrashOs : InvokeCall → Except InvokeError String :=
  fun c => if c.program = "t" then .ok "A" else .error (.osError "gone")


theorem foldl_append_eq (l : List String) (a : String) :
    l.foldl (fun x y => x ++ y) a = a ++ l.foldl (fun x y => x ++ y) "" := by
  induction l generalizing a with
  | nil => simp [List.foldl, String.append_empty]
  | cons x xs ih =>
    simp only [List.foldl]
    rw [ih (a ++ x), ih ("" ++ x), String.empty_append, String.append_assoc]

theorem join_cons (s : String) (l : List String) :
    String.join (s :: l) = s ++ String.join l := by
  simp only [String.join, List.foldl]
  rw [foldl_append_eq l ("" ++ s), String.empty_append]

/-- C1: for every input case where the target's output differs byte-for-byte
from the reference's output (both invocations exiting 0, reference
configured), `trial` raises `AnswerMismatch` whose files mapping equals
exactly hypnofrog.in ↦ the input, hypnofrog.out ↦ the target's output,
hypnofrog.ref ↦ the reference's output. -/
theorem trial_answer_mismatch (input actual expected r : String) (args : Args)
    (os : InvokeCall → Except InvokeError String)
    (checker_os : String → String → String → Except InvokeError String)
    (elapsed : Nat)
    (href : args.reference = some r)
    (htgt : os ⟨args.target, input, args.mem_limit⟩ = .ok actual)
    (hrf : os ⟨r, input, none⟩ = .ok expected)
    (hne : expected ≠ actual) :
    trial input args os checker_os elapsed =
      .error (mkAnswerMismatch input actual expected) ∧
    (mkAnswerMismatch input actual expected).kind = .answerMismatch ∧
    (mkAnswerMismatch input actual expected).files =
      [("hypnofrog.in", input), ("hypnofrog.out", actual), ("hypnofrog.ref", expected)] := by
  refine ⟨?_, rfl, rfl⟩
  simp [trial, trialT, htgt, href, hrf, hne]

/-- C2: for every input case, if the target invocation fails (non-zero exit
status or an OS-level start failure), `trial` raises `CrashError` (Target
Crash) whose files mapping equals exactly hypnofrog.in ↦ the input, and
whose logs include a stderr entry equal to the captured standard-error text
whenever the process produced any (the stderr entry is present, and equal
to the captured text, exactly when the error carries a stderr attribute,
i.e. the process actually ran). -/
theorem trial_target_crash (input : String) (args : Args)
    (os : InvokeCall → Except InvokeError String)
    (checker_os : String → String → String → Except InvokeError String)
    (elapsed : Nat) (exc : InvokeError)
    (herr : os ⟨args.target, input, args.mem_limit⟩ = .error exc) :
    trial input args os checker_os elapsed = .error (mkCrashError input exc) ∧
    (mkCrashError input exc).kind = .crashError ∧
    (mkCrashError input exc).files = [("hypnofrog.in", input)] ∧
    (mkCrashError input exc).logs =
      ("input", input) ::
        (match exc with
         | .calledProcess _ _ stderr => [("stderr", stderr)]
         | .osError _ => []) := by
  refine ⟨?_, ?_, ?_, ?_⟩
  · simp [trial, trialT, herr]
  · cases exc <;> rfl
  · cases exc <;> rfl
  · cases exc <;> rfl

/-- C5: for every input case with a reference configured, if the reference
invocation fails then `trial` raises `BadReferenceError` (Reference
Crash) — a kind distinct from Target Crash — whose files carry only the
input artifact hypnofrog.in. -/
theorem trial_reference_crash (input actual r : String) (args : Args)
    (os : InvokeCall → Except InvokeError String)
    (checker_os : String → String → String → Except InvokeError String)
    (elapsed : Nat) (exc : InvokeError)
    (htgt : os ⟨args.target, input, args.mem_limit⟩ = .ok actual)
    (href : args.reference = some r)
    (herr : os ⟨r, input, none⟩ = .error exc) :
    trial input args os checker_os elapsed = .error (mkBadReferenceError input exc) ∧
    (mkBadReferenceError input exc).kind = .badReferenceError ∧
    (mkBadReferenceError input exc).kind ≠ .crashError ∧
    (mkBadReferenceError input exc).files = [("hypnofrog.in", input)] := by
  refine ⟨?_, ?_, ?_, ?_⟩
  · simp [trial, trialT, htgt, href, herr]
  · cases exc <;> rfl
  · cases exc <;> simp [mkBadReferenceError, mkFailedCase]
  · cases exc <;> rfl

/-- C4: for every input case, when neither a reference nor a checker is
configured, any target invocation that exits with status 0 makes `trial`
succeed, returning the elapsed time and raising no failure. -/
theorem trial_smoke_success (input actual : String) (args : Args)
    (os : InvokeCall → Except InvokeError String)
    (checker_os : String → String → String → Except InvokeError String)
    (elapsed : Nat)
    (href : args.reference = none) (hchk : args.checker = none)
    (htgt : os ⟨args.target, input, args.mem_limit⟩ = .ok actual) :
    trial input args os checker_os elapsed = .ok elapsed := by
  simp [trial, trialT, checkPhase, htgt, href, hchk]

/-- C3: for every input case with a checker configured and a target
invocation that succeeded (and the reference stage, if configured, agreeing
with the target), if the checker invocation fails — by exiting non-zero or
by failing to spawn — `trial` raises `FailedCheckerError` (Checker
Failure) whose files carry the input (hypnofrog.in) and the target's output
(hypnofrog.out) but never hypnofrog.ref, and whose logs carry the checker's
merged standard-output/standard-error stream under the name stderr (the
merged stream exists exactly when the checker actually ran, i.e. the error
carries a stdout attribute). -/
theorem trial_checker_failure (input actual c : String) (args : Args)
    (os : InvokeCall → Except InvokeError String)
    (checker_os : String → String → String → Except InvokeError String)
    (elapsed : Nat) (cexc : InvokeError)
    (hchk : args.checker = some c)
    (htgt : os ⟨args.target, input, args.mem_limit⟩ = .ok actual)
    (href : ∀ r, args.reference = some r → os ⟨r, input, none⟩ = .ok actual)
    (hcerr : checker_os c input actual = .error cexc) :
    trial input args os checker_os elapsed = .error (mkFailedCheckerError input actual cexc) ∧
    (mkFailedCheckerError input actual cexc).kind = .failedCheckerError ∧
    (mkFailedCheckerError input actual cexc).files =
      [("hypnofrog.in", input), ("hypnofrog.out", actual)] ∧
    (mkFailedCheckerError input actual cexc).files.lookup "hypnofrog.ref" = none ∧
    (mkFailedCheckerError input actual cexc).logs =
      ("input", input) ::
        (match cexc with
         | .calledProcess _ stdout _ => [("stderr", stdout)]
         | .osError _ => []) := by
  refine ⟨?_, ?_, ?_, ?_, ?_⟩
  · cases harg : args.reference with
    | none => simp [trial, trialT, checkPhase, htgt, harg, hchk, hcerr]
    | some r => simp [trial, trialT, checkPhase, htgt, harg, href r harg, hchk, hcerr]
  · cases cexc <;> rfl
  · cases cexc <;> rfl
  · cases cexc <;> rfl
  · cases cexc <;> rfl

theorem trialT_trace (input : String) (args : Args)
    (os : InvokeCall → Except InvokeError String)
    (checker_os : String → String → String → Except InvokeError String)
    (elapsed : Nat) :
    (trialT input args os checker_os elapsed).2.head? =
      some ⟨args.target, input, args.mem_limit⟩ ∧
    ((trialT input args os checker_os elapsed).2.tail.all
      fun call => call.mem_limit == none) = true := by
  cases h1 : os ⟨args.target, input, args.mem_limit⟩ with
  | error exc => simp [trialT, h1]
  | ok actual =>
    cases h2 : args.reference with
    | none => simp [trialT, h1, h2]
    | some r =>
      cases h3 : os ⟨r, input, none⟩ with
      | error exc2 => simp [trialT, h1, h2, h3]
      | ok expected =>
        by_cases h4 : expected ≠ actual
        · simp [trialT, h1, h2, h3, h4]
        · simp [trialT, h1, h2, h3, h4]

/-- C7: when a memory limit m is configured, `invoke` constrains the
child's virtual address-space size (soft and hard `RLIMIT_AS`) to exactly
m * 1024 * 1024 bytes in the spawn request, before the child begins
executing, and `trial` applies this limit only to the target invocation:
the first invocation of a trial is the target with the configured limit and
every later invocation (the reference) carries no memory limit. -/
theorem mem_limit_target_only (input p i : String) (args : Args)
    (os : InvokeCall → Except InvokeError String)
    (checker_os : String → String → String → Except InvokeError String)
    (elapsed m : Nat)
    (hm : args.mem_limit = some m) :
    (invoke_spec p i (some m)).rlimit_as = some (m * 1024 * 1024, m * 1024 * 1024) ∧
    (trialT input args os checker_os elapsed).2.head? = some ⟨args.target, input, some m⟩ ∧
    ((trialT input args os checker_os elapsed).2.tail.all
      fun call => call.mem_limit == none) = true := by
  obtain ⟨h1, h2⟩ := trialT_trace input args os checker_os elapsed
  rw [hm] at h1
  exact ⟨rfl, h1, h2⟩

theorem runLoop_none_of_all_ok (args : Args)
    (os : InvokeCall → Except InvokeError String)
    (checker_os : String → String → String → Except InvokeError String)
    (elapsed : String → Nat) (cases : List String)
    (h : ∀ d ∈ cases, isOk (trial d args os checker_os (elapsed d)) = true) :
    runLoop cases args os checker_os elapsed = none := by
  induction cases with
  | nil => rfl
  | cons c rest ih =>
    have hc := h c (List.mem_cons_self c rest)
    unfold runLoop
    cases ht : trial c args os checker_os (elapsed c) with
    | error exc => rw [ht] at hc; simp [isOk] at hc
    | ok v => exact ih fun d hd => h d (List.mem_cons_of_mem c hd)

theorem runLoop_first_failure (args : Args)
    (os : InvokeCall → Except InvokeError String)
    (checker_os : String → String → String → Except InvokeError String)
    (elapsed : String → Nat) (pre post : List String) (c : String) (exc : FailedCase)
    (hpre : ∀ d ∈ pre, isOk (trial d args os checker_os (elapsed d)) = true)
    (hc : trial c args os checker_os (elapsed c) = .error exc) :
    runLoop (pre ++ c :: post) args os checker_os elapsed = some exc := by
  induction pre with
  | nil =>
    simp only [List.nil_append]
    unfold runLoop
    rw [hc]
  | cons d rest ih =>
    have hd := hpre d (List.mem_cons_self d rest)
    simp only [List.cons_append]
    unfold runLoop
    cases ht : trial d args os checker_os (elapsed d) with
    | error e => rw [ht] at hd; simp [isOk] at hd
    | ok v => exact ih fun x hx => hpre x (List.mem_cons_of_mem d hx)

/-- C6: the run loop, on the first trial that raises a failure-taxonomy
value, prints the failure's message and every non-empty log entry (the
content rstripped, as the source prints it), writes every artifact in the
failure's files mapping to a same-named file in the current working
directory, and returns exit status 1; if the case budget is exhausted with
no trial failing, it returns exit status 0. -/
theorem run_reports_first_failure (args : Args)
    (os : InvokeCall → Except InvokeError String)
    (checker_os : String → String → String → Except InvokeError String)
    (elapsed : String → Nat) :
    (∀ cases : List String,
      (∀ d ∈ cases, isOk (trial d args os checker_os (elapsed d)) = true) →
      run cases args os checker_os elapsed = ⟨none, [], [], 0⟩) ∧
    (∀ (pre post : List String) (c : String) (exc : FailedCase),
      (∀ d ∈ pre, isOk (trial d args os checker_os (elapsed d)) = true) →
      trial c args os checker_os (elapsed c) = .error exc →
      run (pre ++ c :: post) args os checker_os elapsed =
        ⟨some exc.message,
         (exc.logs.filter fun p => !(p.2 == "")).map fun p => (p.1, rstrip p.2),
         exc.files, 1⟩) := by
  constructor
  · intro cases h
    unfold run
    rw [runLoop_none_of_all_ok args os checker_os elapsed cases h]
  · intro pre post c exc hpre hc
    unfold run
    rw [runLoop_first_failure args os checker_os elapsed pre post c exc hpre hc]
    rfl

/-- C8: every failure value of the taxonomy (Target Crash, Reference
Crash, Answer Mismatch, Checker Failure, Unexpected Failure) constructed
for an input case has a files entry hypnofrog.in equal to the triggering
input and a logs entry named input equal to that same input. -/
theorem failure_taxonomy_invariant (msg input output reference : String) (err : InvokeError) :
    (("hypnofrog.in", input) ∈ (mkFailedCase .failedCase msg input).files ∧
     ("input", input) ∈ (mkFailedCase .failedCase msg input).logs) ∧
    (("hypnofrog.in", input) ∈ (mkCrashError input err).files ∧
     ("input", input) ∈ (mkCrashError input err).logs) ∧
    (("hypnofrog.in", input) ∈ (mkBadReferenceError input err).files ∧
     ("input", input) ∈ (mkBadReferenceError input err).logs) ∧
    (("hypnofrog.in", input) ∈ (mkAnswerMismatch input output reference).files ∧
     ("input", input) ∈ (mkAnswerMismatch input output reference).logs) ∧
    (("hypnofrog.in", input) ∈ (mkFailedCheckerError input output err).files ∧
     ("input", input) ∈ (mkFailedCheckerError input output err).logs) := by
  cases err <;>
    simp [mkFailedCase, mkBadAnswer, mkAnswerMismatch, mkCrashError,
      mkBadReferenceError, mkFailedCheckerError]

/-- C9: the claim states that `capture_stdout` restores the previous
standard-output sink on every exit path, including the path where the body
raises.  The code violates this: the generator has no `try`/`finally`, so
when the body raises, the restoring assignment after the yield never runs
and `sys.stdout` is left pointing at the capture buffer instead of the
prior sink.  This theorem evaluates the embedding at such a failing input:
with prior sink 0 and fresh buffer 1, a raising body leaves `sys.stdout`
equal to 1, not the prior 0, while a normally completing body does restore
it. -/
theorem capture_stdout_not_restored_on_raise :
    capture_stdout 0 1 BodyOutcome.raised = 1 ∧
    capture_stdout 0 1 BodyOutcome.raised ≠ 0 ∧
    capture_stdout 0 1 BodyOutcome.completed = 0 := by
  exact ⟨rfl, by decide, rfl⟩

/-- C10: for every argument sequence, `make_input` returns the
concatenation of one line per argument in order — a list/tuple argument
becoming its elements' string forms joined by single spaces and any other
argument its string form, every line terminated by a newline — and with
zero arguments it returns the empty string (`make_input_claim` is that
description written out recursively). -/
theorem make_input_correct (args : List Arg) :
    make_input args = make_input_claim args ∧ make_input [] = "" := by
  refine ⟨?_, rfl⟩
  induction args with
  | nil => rfl
  | cons a rest ih =>
    unfold make_input at ih ⊢
    simp only [List.map_cons]
    rw [join_cons]
    cases a with
    | scalar s =>
      unfold make_input_claim
      rw [ih, String.append_assoc]
    | seq items =>
      unfold make_input_claim
      rw [ih, String.append_assoc]

theorem trial_answer_mismatch_witness :
    trial "x" ⟨"t", some "r", none, none⟩ okOs sampleChk 5 =
      .error (mkAnswerMismatch "x" "t!" "r!") ∧
    (mkAnswerMismatch "x" "t!" "r!").kind = .answerMismatch ∧
    (mkAnswerMismatch "x" "t!" "r!").files =
      [("hypnofrog.in", "x"), ("hypnofrog.out", "t!"), ("hypnofrog.ref", "r!")] :=
  trial_answer_mismatch "x" "t!" "r!" "r" ⟨"t", some "r", none, none⟩ okOs sampleChk 5
    rfl rfl rfl (by decide)

theorem trial_target_crash_witness :
    trial "crash" ⟨"t", some "r", none, none⟩ stderrCrashOs sampleChk 5 =
      .error (mkCrashError "crash" (.calledProcess 1 "" "I crash\n")) ∧
    (mkCrashError "crash" (.calledProcess 1 "" "I crash\n")).kind = .crashError ∧
    (mkCrashError "crash" (.calledProcess 1 "" "I crash\n")).files =
      [("hypnofrog.in", "crash")] ∧
    (mkCrashError "crash" (.calledProcess 1 "" "I crash\n")).logs =
      ("input", "crash") :: [("stderr", "I crash\n")] :=
  trial_target_crash "crash" ⟨"t", some "r", none, none⟩ stderrCrashOs sampleChk 5
    (.calledProcess 1 "" "I crash\n") rfl

theorem trial_checker_failure_witness :
    trial "x" ⟨"t", none, some "c", none⟩ okOs failChk 5 =
      .error (mkFailedCheckerError "x" "t!" (.calledProcess 1 "Answers differ\n" "")) ∧
    (mkFailedCheckerError "x" "t!" (.calledProcess 1 "Answers differ\n" "")).kind =
      .failedCheckerError ∧
    (mkFailedCheckerError "x" "t!" (.calledProcess 1 "Answers differ\n" "")).files =
      [("hypnofrog.in", "x"), ("hypnofrog.out", "t!")] ∧
    (mkFailedCheckerError "x" "t!"
      (.calledProcess 1 "Answers differ\n" "")).files.lookup "hypnofrog.ref" = none ∧
    (mkFailedCheckerError "x" "t!" (.calledProcess 1 "Answers differ\n" "")).logs =
      ("input", "x") :: [("stderr", "Answers differ\n")] :=
  trial_checker_failure "x" "t!" "c" ⟨"t", none, some "c", none⟩ okOs failChk 5
    (.calledProcess 1 "Answers differ\n" "") rfl rfl (fun _ h => nomatch h) rfl

theorem trial_smoke_success_witness :
    trial "x" ⟨"t", none, none, none⟩ okOs sampleChk 5 = .ok 5 :=
  trial_smoke_success "x" "t!" ⟨"t", none, none, none⟩ okOs sampleChk 5 rfl rfl rfl

theorem trial_reference_crash_witness :
    trial "x" ⟨"t", some "r", none, none⟩ refCrashOs sampleChk 5 =
      .error (mkBadReferenceError "x" (.osError "gone")) ∧
    (mkBadReferenceError "x" (.osError "gone")).kind = .badReferenceError ∧
    (mkBadReferenceError "x" (.osError "gone")).kind ≠ .crashError ∧
    (mkBadReferenceError "x" (.osError "gone")).files = [("hypnofrog.in", "x")] :=
  trial_reference_crash "x" "A" "r" ⟨"t", some "r", none, none⟩ refCrashOs sampleChk 5
    (.osError "gone") rfl rfl rfl

theorem run_reports_first_failure_witness :
    run ["x"] ⟨"t", some "r", none, none⟩ crashOs sampleChk (fun _ => 0) =
      ⟨some "Target crashed: boom", [("input", "x")], [("hypnofrog.in", "x")], 1⟩ := by
  have h := (run_reports_first_failure ⟨"t", some "r", none, none⟩ crashOs sampleChk
      (fun _ => 0)).2 [] [] "x" (mkCrashError "x" (.osError "boom")) (by simp) rfl
  exact h

theorem mem_limit_target_only_witness :
    (invoke_spec "p" "i" (some 64)).rlimit_as = some (67108864, 67108864) ∧
    (trialT "x" ⟨"t", some "r", none, some 64⟩ okOs sampleChk 5).2.head? =
      some ⟨"t", "x", some 64⟩ ∧
    ((trialT "x" ⟨"t", some "r", none, some 64⟩ okOs sampleChk 5).2.tail.all
      fun call => call.mem_limit == none) = true :=
  mem_limit_target_only "x" "p" "i" ⟨"t", some "r", none, some 64⟩ okOs sampleChk 5 64 rfl

end Hypnofrog
